import Mathlib

/-
  Verification of the WHO dataset manager
  (PythonExercises/VisualizeWHOData/VisualizeWHOData.py).

  The embedding models the class WHODataManager: the cache/fetch lifecycle
  (_initialize_data, download_data) and the in-memory attribute filter
  (filter_data, get_filtered_data).  JSON values that can occur in a record
  are strings, numbers and null; a record is a flat attribute map; the
  loaded dataset is the parsed top-level JSON object, an association list
  from keys to record sequences (the records live under the key "value").
-/

namespace VisualizeWHOData

/-- A JSON scalar value as it appears in a WHO record: a string, a number, or
null.  Numbers are abstracted by integers; as in Python, equality across the
string/number/null variants is false. -/
inductive Value where
  | str : String → Value
  | num : Int → Value
  | null : Value
deriving DecidableEq, Repr

/-- One record of the dataset: a flat mapping from attribute name to value,
embedded as an association list (Python dict keys are unique; lookup takes
the first match). -/
abbrev Record := List (String × Value)

/-- Association-list lookup, modelling Python dict lookup / dict.get. -/
def lookupKey {β : Type} (k : String) : List (String × β) → Option β
  | [] => none
  | (k₀, v) :: rest => if k₀ = k then some v else lookupKey k rest

/-- Python e.get(k) on a record: none when the key is missing (dict.get
returns None); a present JSON null is some Value.null, kept distinct from a
missing key. -/
def getAttr (e : Record) (k : String) : Option Value :=
  lookupKey k e

/-- The parsed top-level JSON object held in self._data, restricted to the
shape filter_data manipulates: each top-level key maps to a sequence of
records (the real file has the records under "value"). -/
abbrev Data := List (String × List Record)

/-- Python truthiness of an Optional[str] argument: None and the empty string
are falsy, every other string is truthy.  This is the gate `if spatial_dim:`
in filter_data. -/
def truthy : Option String → Bool
  | none => false
  | some s => !(s == "")

/-- One narrowing pass of filter_data: under a truthy argument keep the
records whose attribute k equals the argument string
(`[e for e in filtered_entries if e.get(k) == arg]`); otherwise the pass is
skipped and the candidate list is returned unchanged. -/
def passFilter (k : String) (arg : Option String) (es : List Record) : List Record :=
  if truthy arg then es.filter (fun e => getAttr e k == arg.map Value.str) else es

/-- The failure taxonomy of the spec: FetchFailure wraps the network / HTTP /
write error raised in download_data; LoadFailure is the json.load parse error;
StateFailure is the ValueError raised by filter_data. -/
inductive Failure where
  | fetchFailure : String → Failure
  | loadFailure : Failure
  | stateFailure : String → Failure
deriving DecidableEq, Repr

/-- filter_data(self, spatial_dim=None, time_dimension_value=None, dim1=None):
raises ValueError when `not self._data or 'value' not in self._data`, else
applies the three truthiness-gated narrowing passes in source order
(SpatialDim, TimeDimensionValue, Dim1) and returns the surviving records. -/
def filter_data (data : Data) (spatial_dim time_dimension_value dim1 : Option String) :
    Except Failure (List Record) :=
  if data.isEmpty || (lookupKey "value" data).isNone then
    .error (.stateFailure "No data loaded or JSON missing value key")
  else
    .ok (passFilter "Dim1" dim1
          (passFilter "TimeDimensionValue" time_dimension_value
            (passFilter "SpatialDim" spatial_dim ((lookupKey "value" data).getD []))))

/-- The manager with its in-memory dataset self._data, as it stands after a
successful construction. -/
structure WHODataManager where
  _data : Data
deriving DecidableEq, Repr

/-- get_filtered_data: delegates to filter_data with the same arguments and
prints the matched/total counts; it assigns nothing to self, so the manager
state it leaves behind is the receiver itself. -/
def get_filtered_data (m : WHODataManager)
    (spatial_dim time_dimension_value dim1 : Option String) :
    Except Failure (List Record) × WHODataManager :=
  (filter_data m._data spatial_dim time_dimension_value dim1, m)

/-- One filter query: the three optional arguments of get_filtered_data. -/
abbrev Query := Option String × Option String × Option String

/-- The manager state left after running a sequence of filter queries, each
through get_filtered_data (results discarded; only the state is tracked). -/
def runQueries (m : WHODataManager) (qs : List Query) : WHODataManager :=
  qs.foldl (fun acc q => (get_filtered_data acc q.1 q.2.1 q.2.2).2) m

/-- A record satisfies a supplied predicate when, if the argument is a
constraint (truthy: non-null and non-empty per the code's gate), the record's
value at the attribute is exactly the argument string. -/
def satisfiesPred (e : Record) (k : String) (arg : Option String) : Bool :=
  if truthy arg then getAttr e k == arg.map Value.str else true

/-- Membership in one narrowing pass: a record survives the pass iff it was a
candidate and satisfies that pass's predicate. -/
theorem mem_passFilter {e : Record} {k : String} {arg : Option String}
    {es : List Record} :
    e ∈ passFilter k arg es ↔ e ∈ es ∧ satisfiesPred e k arg = true := by
  unfold passFilter satisfiesPred
  by_cases h : truthy arg = true
  · simp [h, List.mem_filter]
  · simp [h]

theorem lookupKey_ne_nil {β : Type} {k : String} {l : List (String × β)} {v : β}
    (h : lookupKey k l = some v) : l.isEmpty = false := by
  cases l with
  | nil => simp [lookupKey] at h
  | cons a l => simp [List.isEmpty]

/-- Under a present "value" key, filter_data takes its success branch on the
chained passes over those records. -/
theorem filter_data_eq_of_value {data : Data} {entries : List Record}
    (hv : lookupKey "value" data = some entries)
    (s t d : Option String) :
    filter_data data s t d =
      .ok (passFilter "Dim1" d
            (passFilter "TimeDimensionValue" t
              (passFilter "SpatialDim" s entries))) := by
  unfold filter_data
  rw [lookupKey_ne_nil hv, hv]
  rfl

/-- Each narrowing pass returns an ordered sub-sequence of its candidates. -/
theorem passFilter_sublist (k : String) (arg : Option String) (es : List Record) :
    (passFilter k arg es).Sublist es := by
  unfold passFilter
  by_cases h : truthy arg = true
  · rw [h]
    simp only [if_true]
    exact List.filter_sublist es
  · simp only [Bool.not_eq_true] at h
    rw [h]
    simp

/-- A record that satisfies a constraining (truthy) predicate carries the
attribute: its value is the predicate string, in particular present. -/
theorem isSome_of_satisfiesPred {e : Record} {k : String} {arg : Option String}
    (ht : truthy arg = true) (h : satisfiesPred e k arg = true) :
    (getAttr e k).isSome = true := by
  cases arg with
  | none => simp [truthy] at ht
  | some s =>
    unfold satisfiesPred at h
    rw [ht] at h
    simp only [if_true, Option.map_some, beq_iff_eq] at h
    rw [h]
    rfl

/-- Sample records, following the record shape documented in the source (the
entry for GUY printed in the file) and the scenario of the spec. -/
def recGUY : Record :=
  [("SpatialDim", Value.str "GUY"), ("TimeDimensionValue", Value.str "2001"),
   ("Dim1", Value.str "SEX_BTSX"), ("NumericValue", Value.num 64)]

def recUSA : Record :=
  [("SpatialDim", Value.str "USA"), ("TimeDimensionValue", Value.str "2001"),
   ("Dim1", Value.str "SEX_BTSX"), ("NumericValue", Value.num 78)]

/-- A record lacking the TimeDimensionValue and Dim1 attributes. -/
def recBare : Record := [("SpatialDim", Value.str "FRA")]

def sampleData : Data := [("value", [recGUY, recUSA])]

def mixedData : Data := [("value", [recGUY, recBare])]

/-- C1 Filter conjunction: whenever the loaded data holds the record sequence
under "value" and at least one predicate is supplied (a predicate passed a
non-null value that the code's truthiness gate treats as a constraint; the
empty string is not a constraint, see C10), filter_data succeeds and a record
is in the result iff it is a loaded record whose value at every supplied
predicate attribute equals, by value equality, that predicate's expected
value: exhaustiveness and soundness of the conjunction. -/
theorem C1_filter_conjunction (data : Data) (s t d : Option String)
    (entries : List Record)
    (hv : lookupKey "value" data = some entries)
    (hne : truthy s = true ∨ truthy t = true ∨ truthy d = true) :
    ∃ res, filter_data data s t d = .ok res ∧
      ∀ e : Record, e ∈ res ↔
        e ∈ entries ∧ satisfiesPred e "SpatialDim" s = true ∧
          satisfiesPred e "TimeDimensionValue" t = true ∧
          satisfiesPred e "Dim1" d = true := by
  refine ⟨_, filter_data_eq_of_value hv s t d, ?_⟩
  intro e
  rw [mem_passFilter, mem_passFilter, mem_passFilter]
  tauto

/-- Witness for C1 at the spec scenario query (GUY, 2001, SEX_BTSX) over the
sample dataset. -/
theorem C1_filter_conjunction_witness :
    lookupKey "value" sampleData = some [recGUY, recUSA] ∧
    (truthy (some "GUY") = true ∨ truthy (some "2001") = true ∨
      truthy (some "SEX_BTSX") = true) ∧
    ∃ res,
      filter_data sampleData (some "GUY") (some "2001") (some "SEX_BTSX") = .ok res ∧
      ∀ e : Record, e ∈ res ↔
        e ∈ [recGUY, recUSA] ∧ satisfiesPred e "SpatialDim" (some "GUY") = true ∧
          satisfiesPred e "TimeDimensionValue" (some "2001") = true ∧
          satisfiesPred e "Dim1" (some "SEX_BTSX") = true :=
  ⟨rfl, Or.inl (by decide),
   C1_filter_conjunction sampleData (some "GUY") (some "2001") (some "SEX_BTSX")
     [recGUY, recUSA] rfl (Or.inl (by decide))⟩

/-- C2 No-predicate identity: with all three predicate arguments None (the
default when an argument is omitted, so omitted and explicitly-None calls are
the same call of the embedding), filter_data returns the full loaded record
sequence unchanged, in original order. -/
theorem C2_no_predicate_identity (data : Data) (entries : List Record)
    (hv : lookupKey "value" data = some entries) :
    filter_data data none none none = .ok entries := by
  rw [filter_data_eq_of_value hv]
  rfl

/-- Witness for C2 on the sample dataset. -/
theorem C2_no_predicate_identity_witness :
    lookupKey "value" sampleData = some [recGUY, recUSA] ∧
    filter_data sampleData none none none = .ok [recGUY, recUSA] :=
  ⟨rfl, C2_no_predicate_identity sampleData [recGUY, recUSA] rfl⟩

/-- C6 StateFailure condition: filter_data raises a StateFailure exactly when
the loaded object is empty (not self._data) or has no top-level "value" key;
and whenever the "value" key is present the error branch is unreachable and
the call succeeds. -/
theorem C6_state_failure_iff (data : Data) (s t d : Option String) :
    ((∃ msg, filter_data data s t d = .error (.stateFailure msg)) ↔
      (data = [] ∨ lookupKey "value" data = none)) ∧
    (∀ entries, lookupKey "value" data = some entries →
      ∃ res, filter_data data s t d = .ok res) := by
  constructor
  · constructor
    · rintro ⟨msg, hmsg⟩
      unfold filter_data at hmsg
      by_cases h : (data.isEmpty || (lookupKey "value" data).isNone) = true
      · rw [Bool.or_eq_true] at h
        rcases h with h₁ | h₁
        · exact Or.inl (List.isEmpty_iff.mp h₁)
        · exact Or.inr (Option.isNone_iff_eq_none.mp h₁)
      · simp only [Bool.not_eq_true] at h
        rw [h] at hmsg
        simp at hmsg
    · intro h
      have hc : (data.isEmpty || (lookupKey "value" data).isNone) = true := by
        rcases h with h | h
        · subst h; simp
        · simp [h]
      unfold filter_data
      rw [hc]
      exact ⟨"No data loaded or JSON missing value key", rfl⟩
  · intro entries hv
    exact ⟨_, filter_data_eq_of_value hv s t d⟩

/-- Witness for C6: the empty object yields the StateFailure, the sample
dataset takes the success branch. -/
theorem C6_state_failure_iff_witness :
    (∃ msg, filter_data ([] : Data) none none none = .error (.stateFailure msg)) ∧
    (∃ res, filter_data sampleData (some "GUY") none none = .ok res) :=
  ⟨(C6_state_failure_iff [] none none none).1.mpr (Or.inl rfl),
   (C6_state_failure_iff sampleData (some "GUY") none none).2 [recGUY, recUSA] rfl⟩

/-- C7 Missing-attribute totality: with the "value" key present, filter_data
never raises, whatever the predicates; a query matching nothing returns the
empty sequence rather than an error (the success branch is taken in every
case); and a record lacking a supplied predicate attribute is excluded: every
record of the result carries each constrained attribute, so a missing
attribute never matches a non-null predicate. -/
theorem C7_missing_attribute_totality (data : Data) (s t d : Option String)
    (entries : List Record)
    (hv : lookupKey "value" data = some entries) :
    ∃ res, filter_data data s t d = .ok res ∧
      ∀ e ∈ res,
        (truthy s = true → (getAttr e "SpatialDim").isSome = true) ∧
        (truthy t = true → (getAttr e "TimeDimensionValue").isSome = true) ∧
        (truthy d = true → (getAttr e "Dim1").isSome = true) := by
  refine ⟨_, filter_data_eq_of_value hv s t d, ?_⟩
  intro e he
  rw [mem_passFilter, mem_passFilter, mem_passFilter] at he
  obtain ⟨⟨⟨_, hs⟩, ht⟩, hd⟩ := he
  exact ⟨fun h => isSome_of_satisfiesPred h hs,
         fun h => isSome_of_satisfiesPred h ht,
         fun h => isSome_of_satisfiesPred h hd⟩

/-- Witness for C7 over the dataset holding a record with no Dim1 attribute,
constrained on Dim1. -/
theorem C7_missing_attribute_totality_witness :
    lookupKey "value" mixedData = some [recGUY, recBare] ∧
    ∃ res, filter_data mixedData none none (some "SEX_BTSX") = .ok res ∧
      ∀ e ∈ res,
        (truthy (none : Option String) = true → (getAttr e "SpatialDim").isSome = true) ∧
        (truthy (none : Option String) = true →
          (getAttr e "TimeDimensionValue").isSome = true) ∧
        (truthy (some "SEX_BTSX") = true → (getAttr e "Dim1").isSome = true) :=
  ⟨rfl, C7_missing_attribute_totality mixedData none none (some "SEX_BTSX")
    [recGUY, recBare] rfl⟩

/-- C8 Subsequence and order preservation: every successful filter result is
an ordered sub-sequence of the loaded record sequence (same relative order),
and its length lies between 0 and the loaded total count. -/
theorem C8_filter_sublist (data : Data) (s t d : Option String)
    (entries res : List Record)
    (hv : lookupKey "value" data = some entries)
    (hr : filter_data data s t d = .ok res) :
    res.Sublist entries ∧ res.length ≤ entries.length := by
  rw [filter_data_eq_of_value hv] at hr
  rw [Except.ok.injEq] at hr
  subst hr
  have hsub : (passFilter "Dim1" d
      (passFilter "TimeDimensionValue" t
        (passFilter "SpatialDim" s entries))).Sublist entries :=
    ((passFilter_sublist "Dim1" d _).trans
      (passFilter_sublist "TimeDimensionValue" t _)).trans
      (passFilter_sublist "SpatialDim" s entries)
  exact ⟨hsub, hsub.length_le⟩

/-- Witness for C8: the (GUY, none, none) query over the sample dataset keeps
exactly the GUY record, a sub-sequence of the two loaded records. -/
theorem C8_filter_sublist_witness :
    lookupKey "value" sampleData = some [recGUY, recUSA] ∧
    filter_data sampleData (some "GUY") none none = .ok [recGUY] ∧
    List.Sublist [recGUY] [recGUY, recUSA] ∧
    List.length [recGUY] ≤ List.length [recGUY, recUSA] :=
  ⟨rfl, rfl,
   C8_filter_sublist sampleData (some "GUY") none none [recGUY, recUSA] [recGUY]
     rfl rfl⟩

/-- C9 Frame: get_filtered_data (and through it filter_data) assigns nothing
to the manager, so after any sequence of filter queries the manager and its
in-memory record data are exactly what construction loaded. -/
theorem C9_frame_no_mutation (m : WHODataManager) (qs : List Query) :
    runQueries m qs = m ∧ (runQueries m qs)._data = m._data := by
  have h : runQueries m qs = m := by
    induction qs with
    | nil => rfl
    | cons q qs ih => exact ih
  exact ⟨h, by rw [h]⟩

/-- C10 Empty-string predicates are no-ops: each predicate is gated on Python
truthiness, and the empty string is falsy, so passing the empty string in any
of the three argument positions gives exactly the same result as omitting
that predicate; consequently no call can constrain an attribute to equal the
empty string. -/
theorem C10_empty_string_noop (data : Data) (a b : Option String) :
    filter_data data (some "") a b = filter_data data none a b ∧
    filter_data data a (some "") b = filter_data data a none b ∧
    filter_data data a b (some "") = filter_data data a b none :=
  ⟨rfl, rfl, rfl⟩

/-
  The cache/fetch lifecycle: _initialize_data and download_data.

  The filesystem and the network are the external world of the class; the
  embedding passes them explicitly.  json.load is a library call, modelled by
  an arbitrary parse function from file text to the parsed object (none is a
  JSONDecodeError); the theorems quantify over it.
-/

/-- The filesystem visible to the manager: the files present, as paths with
text contents.  Directories are implicit in this view; mkdir with
parents=True, exist_ok=True never fails and changes no file, so
ensure_data_directory is the identity on it. -/
structure FS where
  files : List (String × String)
deriving DecidableEq, Repr

def FS.fileExists (fs : FS) (p : String) : Bool :=
  (lookupKey p fs.files).isSome

/-- Reading a path; the empty string stands for the content of a path that is
never read without an existence check in the source. -/
def FS.read (fs : FS) (p : String) : String :=
  (lookupKey p fs.files).getD ""

/-- Writing a path: open(p, wb) creates or truncates, the new content
shadows any previous file at the path. -/
def FS.write (fs : FS) (p : String) (content : String) : FS :=
  ⟨(p, content) :: fs.files⟩

/-- The prefix of a string of at most n characters, modelling the bytes a
file write persisted before an interruption. -/
def strTake (s : String) (n : Nat) : String :=
  String.mk (s.data.take n)

/-- What the outside world does during download_data: the outcome of the one
requests.get call to self.url (a network error, or a response with an HTTP
status and a body), and whether the file write runs to completion (none) or
raises after the first k characters have reached the disk (some k). -/
structure Env where
  fetchResult : Except String (Nat × String)
  writeOutcome : Option Nat
deriving Repr

/-- response.raise_for_status(): raises for every HTTP error status (400 and
above); every status below 400 passes. -/
def raise_for_status (status : Nat) : Except String Unit :=
  if 400 ≤ status then .error (toString status ++ " Error") else .ok ()

/-- download_data: one requests.get with a timeout, raise_for_status, then
ensure_data_directory and a direct write of the response body to
self.filepath; every exception along the way is caught and re-raised wrapped
as "Failed to download data: ...".  Returns the outcome together with the
filesystem left behind: unchanged on a fetch or status error (the write was
never reached), the full body on success, the persisted prefix when the
write itself raises partway. -/
def download_data (env : Env) (fs : FS) (filepath : String) :
    Except String Unit × FS :=
  match env.fetchResult with
  | .error e => (.error ("Failed to download data: " ++ e), fs)
  | .ok (status, content) =>
    match raise_for_status status with
    | .error e => (.error ("Failed to download data: " ++ e), fs)
    | .ok _ =>
      match env.writeOutcome with
      | none => (.ok (), fs.write filepath content)
      | some k => (.error "Failed to download data: write failed",
                   fs.write filepath (strTake content k))

/-- The outcome of _initialize_data: the loaded object or the construction
failure, the filesystem left behind, and how many network fetches were
issued. -/
structure InitResult where
  result : Except Failure Data
  fs : FS
  fetches : Nat
deriving Repr

/-- _initialize_data: if self.filepath does not exist, download_data (whose
failure, a FetchFailure, propagates); then open the file and json.load it (a
parse failure is a LoadFailure).  When the file already exists no download
happens and the file is parsed as it stands. -/
def _initialize_data (env : Env) (parse : String → Option Data) (fs : FS)
    (filepath : String) : InitResult :=
  if fs.fileExists filepath then
    match parse (fs.read filepath) with
    | some d => ⟨.ok d, fs, 0⟩
    | none => ⟨.error .loadFailure, fs, 0⟩
  else
    match download_data env fs filepath with
    | (.error e, fs₁) => ⟨.error (.fetchFailure e), fs₁, 1⟩
    | (.ok _, fs₁) =>
      match parse (fs₁.read filepath) with
      | some d => ⟨.ok d, fs₁, 1⟩
      | none => ⟨.error .loadFailure, fs₁, 1⟩

/-- The cache path of the default dataset identity. -/
def cachePath : String := "Data/WHOSIS_000001.json"

/-- A concrete parse oracle for witnesses: exactly one good serialization,
every other file text is malformed. -/
def parseEx (s : String) : Option Data :=
  if s = "WHO-JSON" then some sampleData else none

/-- A filesystem holding a malformed cache file at the cache path. -/
def fsBad : FS := ⟨[(cachePath, "<html>404</html>")]⟩

/-- The empty filesystem: no cache file. -/
def fsEmpty : FS := ⟨[]⟩

/-- An environment whose fetch succeeds with a parseable body and whose
write completes: the source URL is reachable. -/
def envOk : Env := ⟨.ok (200, "WHO-JSON"), none⟩

/-- An environment whose fetch returns HTTP 500. -/
def env500 : Env := ⟨.ok (500, "Server Error"), none⟩

/-- An environment whose fetch succeeds but whose write raises after three
characters have been persisted. -/
def envPartial : Env := ⟨.ok (200, "RAWBODY"), some 3⟩

/-- C3 Cache-hit path: whenever the resolved cache file exists, construction
parses it and issues no network fetch, whatever the environment (so even if
the source URL is reachable): a well-formed file loads as its parse, and a
malformed file raises a LoadFailure with no fetch attempted. -/
theorem C3_cache_hit_no_fetch (env : Env) (parse : String → Option Data)
    (fs : FS) (filepath : String)
    (hex : fs.fileExists filepath = true) :
    (_initialize_data env parse fs filepath).fetches = 0 ∧
    (∀ d, parse (fs.read filepath) = some d →
      (_initialize_data env parse fs filepath).result = .ok d) ∧
    (parse (fs.read filepath) = none →
      (_initialize_data env parse fs filepath).result = .error .loadFailure) := by
  unfold _initialize_data
  rw [hex]
  cases hp : parse (fs.read filepath) <;> simp [hp]

/-- Witness for C3: a malformed cache file is present, the URL is reachable,
yet construction raises the LoadFailure after zero fetches. -/
theorem C3_cache_hit_no_fetch_witness :
    FS.fileExists fsBad cachePath = true ∧
    ((_initialize_data envOk parseEx fsBad cachePath).fetches = 0 ∧
     (∀ d, parseEx (FS.read fsBad cachePath) = some d →
       (_initialize_data envOk parseEx fsBad cachePath).result = .ok d) ∧
     (parseEx (FS.read fsBad cachePath) = none →
       (_initialize_data envOk parseEx fsBad cachePath).result = .error .loadFailure)) :=
  ⟨rfl, C3_cache_hit_no_fetch envOk parseEx fsBad cachePath rfl⟩

/-- C4 Fetch failure atomicity: with no cache file and a fetch that returns
an HTTP error status, construction raises a FetchFailure wrapping the
underlying HTTP error, exactly one fetch is issued (no retry), and the
filesystem is left exactly as it was: no cache file is created. -/
theorem C4_fetch_failure_atomic (env : Env) (parse : String → Option Data)
    (fs : FS) (filepath : String) (status : Nat) (body : String)
    (hmiss : fs.fileExists filepath = false)
    (hfetch : env.fetchResult = .ok (status, body))
    (hstatus : 400 ≤ status) :
    (_initialize_data env parse fs filepath).result =
      .error (.fetchFailure ("Failed to download data: " ++
        (toString status ++ " Error"))) ∧
    (_initialize_data env parse fs filepath).fetches = 1 ∧
    (_initialize_data env parse fs filepath).fs = fs := by
  have hd : download_data env fs filepath =
      (.error ("Failed to download data: " ++ (toString status ++ " Error")), fs) := by
    unfold download_data raise_for_status
    rw [hfetch]
    simp [hstatus]
  unfold _initialize_data
  rw [hmiss]
  simp [hd]

/-- Witness for C4: HTTP 500 against the empty filesystem. -/
theorem C4_fetch_failure_atomic_witness :
    FS.fileExists fsEmpty cachePath = false ∧
    Env.fetchResult env500 = .ok (500, "Server Error") ∧
    400 ≤ 500 ∧
    ((_initialize_data env500 parseEx fsEmpty cachePath).result =
      .error (.fetchFailure ("Failed to download data: " ++
        (toString 500 ++ " Error"))) ∧
     (_initialize_data env500 parseEx fsEmpty cachePath).fetches = 1 ∧
     (_initialize_data env500 parseEx fsEmpty cachePath).fs = fsEmpty) :=
  ⟨rfl, rfl, by decide,
   C4_fetch_failure_atomic env500 parseEx fsEmpty cachePath 500 "Server Error"
     rfl rfl (by decide)⟩

/-- C5 counterexample: a fetch succeeds with body "RAWBODY" but the write
raises after three characters; download_data fails, yet the cache file
exists and holds "RAW", neither the complete response body nor nothing: the
direct write is not all-or-nothing. -/
theorem C5_write_partial_counterexample :
    (∃ e, (download_data envPartial fsEmpty cachePath).1 = Except.error e) ∧
    FS.read (download_data envPartial fsEmpty cachePath).2 cachePath = "RAW" ∧
    ¬ (FS.read (download_data envPartial fsEmpty cachePath).2 cachePath = "RAWBODY" ∨
       FS.fileExists (download_data envPartial fsEmpty cachePath).2 cachePath = false) := by
  refine ⟨⟨"Failed to download data: write failed", rfl⟩, by decide, ?_⟩
  rintro (h | h) <;> revert h <;> decide

/-- C5 amended: when the write step of download_data raises after k
characters, construction fails with the wrapped FetchFailure message, but
the cache file is left holding the persisted k-character prefix of the
response body (the reference writes directly to the final path): the write
is not all-or-nothing. -/
theorem C5_write_partial_behavior (env : Env) (fs : FS) (filepath : String)
    (status : Nat) (content : String) (k : Nat)
    (hfetch : env.fetchResult = .ok (status, content))
    (hok : status < 400)
    (hw : env.writeOutcome = some k) :
    download_data env fs filepath =
      (.error "Failed to download data: write failed",
       fs.write filepath (strTake content k)) := by
  unfold download_data raise_for_status
  rw [hfetch]
  simp [Nat.not_le.mpr hok, hw]

/-- Witness for C5 amended at the concrete interrupted write. -/
theorem C5_write_partial_behavior_witness :
    Env.fetchResult envPartial = .ok (200, "RAWBODY") ∧
    200 < 400 ∧
    Env.writeOutcome envPartial = some 3 ∧
    download_data envPartial fsEmpty cachePath =
      (.error "Failed to download data: write failed",
       FS.write fsEmpty cachePath (strTake "RAWBODY" 3)) :=
  ⟨rfl, by decide, rfl,
   C5_write_partial_behavior envPartial fsEmpty cachePath 200 "RAWBODY" 3
     rfl (by decide) rfl⟩
